import Mathlib

set_option maxHeartbeats 1000000

namespace LegislativeAgent

/-! Shallow embedding of the Legislative-AI-agent repository.
Python strings are modelled as `List Char` (Python indexes and slices by
code point, as `List.take` does).  LLM replies are untrusted external
inputs, so every LLM round-trip is modelled as an oracle function from
the prompt to `Except String α`: `Except.error` models a raised
exception, `Except.ok` a reply that the structured-output machinery
coerced into the schema. -/

/-- Python `str.strip()`: drop whitespace from both ends of a line
(src/src/pdf_extractor.py, `clean_text`). -/
def stripL (l : List Char) : List Char :=
  ((l.dropWhile Char.isWhitespace).reverse.dropWhile Char.isWhitespace).reverse

/-- Python `str.split("\n")`: split at every newline, keeping empty
pieces; the empty string yields one empty piece. -/
def splitNL : List Char → List (List Char)
  | [] => [[]]
  | c :: cs =>
    if c = '\n' then [] :: splitNL cs
    else
      match splitNL cs with
      | [] => [[c]]
      | l :: ls => (c :: l) :: ls

/-- Python `sep.join(pieces)`. -/
def joinWith (sep : List Char) : List (List Char) → List Char
  | [] => []
  | [x] => x
  | x :: y :: rest => x ++ sep ++ joinWith sep (y :: rest)

/-- Lines of a text, with Python `str.splitlines` semantics at the empty
string: an empty text has no lines at all (so it has no blank line). -/
def linesOf (t : List Char) : List (List Char) :=
  if t = [] then [] else splitNL t

/-- The `cleaned_lines` list built by `clean_text`: split into lines,
strip each line, keep only the non-empty ones (`if line:`). -/
def cleanedLines (text : List Char) : List (List Char) :=
  ((splitNL text).map stripL).filter (fun l => !l.isEmpty)

/-- Transliteration of `clean_text` (src/src/pdf_extractor.py lines 35-58):
split into lines, strip each line, keep only non-empty lines, rejoin
with single newlines. -/
def clean_text (text : List Char) : List Char :=
  joinWith ['\n'] (cleanedLines text)

/-- Transliteration of `extract_text_from_pdf` (src/src/pdf_extractor.py
lines 7-32).  Each page of the document is modelled by what the external
extraction library returns for it: `none` when `page.extract_text`
returns `None`, `some s` when it returns the string `s`.  Pages whose
text is `None` or empty are skipped (`if page_text:`), the remaining
page texts are joined with a double newline, and the result is cleaned. -/
def extract_text_from_pdf (pages : List (Option (List Char))) : List Char :=
  clean_text (joinWith ['\n', '\n'] ((pages.filterMap id).filter (fun p => !p.isEmpty)))

/-! Analyzer schemas (src/src/gemini_analyzer.py).  The pydantic models
constrain only the field set and the field types; notably
`RuleCheck.status` is an arbitrary string, not an enumeration. -/

/-- Schema for Task 2 (pydantic `ActSummary`). -/
structure ActSummary where
  purpose : List Char
  key_definitions : List Char
  eligibility : List Char
  obligations : List Char
  enforcement : List Char

/-- Schema for Task 3 (pydantic `LegislativeSections`). -/
structure LegislativeSections where
  definitions : List Char
  obligations : List Char
  responsibilities : List Char
  eligibility : List Char
  payments : List Char
  penalties : List Char
  record_keeping : List Char

/-- Schema for Task 4 (pydantic `RuleCheck`). -/
structure RuleCheck where
  rule : String
  status : String
  evidence : String
  confidence : Nat

/-- Discriminator for the oracle result (`True` iff the call returned
normally). -/
def isOk : Except String α → Bool
  | .ok _ => true
  | .error _ => false

/-- Literal prompt text of `summarize_act` up to the interpolated
`text[:20000]`. -/
def summaryHeader : String :=
  "\nAnalyze the following Universal Credit Act 2025 and provide a summary in exactly 5 bullet points covering:\n\n1. Purpose - What is the main purpose of this Act?\n2. Key Definitions - What are the most important terms defined?\n3. Eligibility - Who is eligible under this Act?\n4. Obligations - What are the key obligations?\n5. Enforcement - What enforcement mechanisms exist?\n\nBe concise and specific. Extract actual section references where possible.\n\nTEXT:\n"

/-- Prompt built by `summarize_act` (src/src/gemini_analyzer.py lines
68-81): the input text is truncated to its first 20000 characters. -/
def summaryPrompt (text : List Char) : List Char :=
  summaryHeader.data ++ text.take 20000 ++ ("\n").data

/-- Literal prompt text of `extract_legislative_sections` up to the
interpolated `text[:20000]`. -/
def sectionsHeader : String :=
  "\nExtract the following sections from the Universal Credit Act 2025. Be specific and include section numbers.\n\nReturn a JSON object with these exact keys:\n- \"definitions\": Key terms defined in the Act\n- \"obligations\": Obligations stated in the Act\n- \"responsibilities\": Responsibilities of the administering authority\n- \"eligibility\": Eligibility criteria for claimants\n- \"payments\": Payment calculation or entitlement structure\n- \"penalties\": Enforcement or penalty mechanisms\n- \"record_keeping\": Record-keeping or reporting requirements\n\nTEXT:\n"

/-- Prompt built by `extract_legislative_sections` (src/src/gemini_analyzer.py
lines 116-130). -/
def sectionsPrompt (text : List Char) : List Char :=
  sectionsHeader.data ++ text.take 20000 ++ ("\n").data

/-- Literal prompt text of a rule check before the interpolated rule. -/
def rulePromptPre : String :=
  "\nAnalyze if the Universal Credit Act 2025 meets this requirement:\n\""

/-- Literal prompt text of a rule check between the rule and the
interpolated `text[:20000]`. -/
def rulePromptMid : String :=
  "\"\n\nDetermine:\n1. Status: \"pass\" or \"fail\"\n2. Evidence: Specific section reference or evidence from the Act\n3. Confidence: Score from 0-100 indicating confidence in this assessment\n\nReturn JSON with keys: rule, status, evidence, confidence\n\nTEXT:\n"

/-- Prompt built for one rule check (src/src/gemini_analyzer.py lines
178-191). -/
def rulePrompt (rule : String) (text : List Char) : List Char :=
  rulePromptPre.data ++ rule.data ++ rulePromptMid.data ++ text.take 20000 ++ ("\n").data

/-- Formatting of a structured summary into the five bullet points
(`summarize_act`, success branch). -/
def formatSummary (s : ActSummary) : List (List Char) :=
  [("Purpose: ").data ++ s.purpose,
   ("Key Definitions: ").data ++ s.key_definitions,
   ("Eligibility: ").data ++ s.eligibility,
   ("Obligations: ").data ++ s.obligations,
   ("Enforcement: ").data ++ s.enforcement]

/-- Fallback line splitting of `summarize_act`:
`[line.strip() for line in response.content.split(chr(10)) if line.strip()][:10]`. -/
def fallbackLines (content : List Char) : List (List Char) :=
  (((splitNL content).map stripL).filter (fun l => !l.isEmpty)).take 10

/-- Transliteration of `summarize_act` (src/src/gemini_analyzer.py lines
58-104).  `structuredLLM` models `structured_llm.invoke` (inside the
`try`), `plainLLM` models the bare `self.llm.invoke` of the fallback
branch, which is NOT wrapped in any `try`: if it raises, the exception
propagates out of `summarize_act`, which the `Except.error` result
models. -/
def summarize_act (structuredLLM : List Char → Except String ActSummary)
    (plainLLM : List Char → Except String (List Char))
    (text : List Char) : Except String (List (List Char)) :=
  match structuredLLM (summaryPrompt text) with
  | .ok s => .ok (formatSummary s)
  | .error _ =>
    match plainLLM (summaryPrompt text) with
    | .ok content => .ok (fallbackLines content)
    | .error e => .error e

/-- Fallback value of `extract_legislative_sections`: a fixed
placeholder for every one of the seven fields. -/
def sectionsFallback : LegislativeSections :=
  ⟨("Error extracting definitions").data,
   ("Error extracting obligations").data,
   ("Error extracting responsibilities").data,
   ("Error extracting eligibility").data,
   ("Error extracting payments").data,
   ("Error extracting penalties").data,
   ("Error extracting record_keeping").data⟩

/-- Transliteration of `extract_legislative_sections`
(src/src/gemini_analyzer.py lines 106-151): one structured call; on any
failure, the all-placeholder fallback is returned.  Total: the `except`
branch performs no further fallible call. -/
def extract_legislative_sections (llm : List Char → Except String LegislativeSections)
    (text : List Char) : LegislativeSections :=
  match llm (sectionsPrompt text) with
  | .ok s => s
  | .error _ => sectionsFallback

/-- The six fixed rule statements of `apply_rule_checks`
(src/src/gemini_analyzer.py lines 163-172), in source order. -/
def rules : List String :=
  [("Act must define key terms"),
   ("Act must specify eligibility criteria"),
   ("Act must specify responsibilities of the administering authority"),
   ("Act must include enforcement or penalties"),
   ("Act must include payment calculation or entitlement structure"),
   ("Act must include record-keeping or reporting requirements")]

/-- Transliteration of `apply_rule_checks` (src/src/gemini_analyzer.py
lines 153-206): a `for` loop over the six rules, appending one result
per rule; a failed call for one rule appends the error-shaped fallback
result for that rule and the loop continues, so the function itself is
total (never raises). -/
def apply_rule_checks (llm : List Char → Except String RuleCheck)
    (text : List Char) : List RuleCheck :=
  rules.foldl
    (fun results rule =>
      results ++ [match llm (rulePrompt rule text) with
        | .ok rc => rc
        | .error e => ⟨rule, ("error"), ("Analysis failed: ") ++ e, 0⟩])
    []

/-! JSON compiler (src/src/json_compiler.py).  A Python dict is
insertion-ordered, so the report and every JSON object are modelled as
ordered association lists. -/

/-- JSON values, as produced by the report compiler. -/
inductive Json where
  | null
  | str (s : String)
  | num (n : Int)
  | arr (xs : List Json)
  | obj (fields : List (String × Json))

/-- Lookup of a key in an ordered association list (Python `d[k]` /
`d.get(k)` on the modelled dict). -/
def lookupKey : List (String × Json) → String → Option Json
  | [], _ => none
  | (k, v) :: rest, key => if k = key then some v else lookupKey rest key

/-- Python dict assignment `d[k] = v`: replace in place when the key
exists (keeping its position), append otherwise. -/
def setKey : List (String × Json) → String → Json → List (String × Json)
  | [], k, v => [(k, v)]
  | (k0, v0) :: rest, k, v =>
    if k0 = k then (k, v) :: rest else (k0, v0) :: setKey rest k v

/-- The in-memory report held by `JSONCompiler`. -/
abbrev Report := List (String × Json)

/-- Report created by `JSONCompiler.__init__` (src/src/json_compiler.py
lines 12-19): five fixed top-level sections, each initially empty. -/
def initReport : Report :=
  [(("metadata"), Json.obj []),
   (("task1_text_extraction"), Json.obj []),
   (("task2_summary"), Json.obj []),
   (("task3_legislative_sections"), Json.obj []),
   (("task4_rule_checks"), Json.obj [])]

/-- Transliteration of `JSONCompiler.add_metadata`; `now` stands for the
`datetime.now().isoformat()` timestamp captured at call time. -/
def add_metadata (now : String) (pdf_info : Json) (r : Report) : Report :=
  setKey r ("metadata") (Json.obj
    [(("document_name"), Json.str ("Universal Credit Act 2025")),
     (("analysis_date"), Json.str now),
     (("pdf_info"), pdf_info)])

/-- Transliteration of `JSONCompiler.add_task1_result`. -/
def add_task1_result (extracted_text : List Char) (pdf_path : String) (r : Report) : Report :=
  setKey r ("task1_text_extraction") (Json.obj
    [(("description"), Json.str ("Full text extracted from PDF")),
     (("source_file"), Json.str pdf_path),
     (("text_length"), Json.num (extracted_text.length : Int)),
     (("status"), Json.str ("completed")),
     (("note"), Json.str ("Full text stored separately for brevity"))])

/-- Transliteration of `JSONCompiler.add_task2_result`; the argument is
the `summary.get("summary", [])` list of bullet points. -/
def add_task2_result (summary_points : List (List Char)) (r : Report) : Report :=
  setKey r ("task2_summary") (Json.obj
    [(("description"), Json.str ("Act summarized in 5-10 bullet points")),
     (("summary_points"), Json.arr (summary_points.map (fun p => Json.str (String.mk p)))),
     (("status"), Json.str ("completed"))])

/-- Transliteration of `JSONCompiler.add_task3_result`. -/
def add_task3_result (sections : Json) (r : Report) : Report :=
  setKey r ("task3_legislative_sections") (Json.obj
    [(("description"), Json.str ("Key legislative sections extracted")),
     (("sections"), sections),
     (("status"), Json.str ("completed"))])

/-- JSON shape of one rule-check entry (`rule_result.model_dump()`). -/
def ruleCheckJson (c : RuleCheck) : Json :=
  Json.obj
    [(("rule"), Json.str c.rule),
     (("status"), Json.str c.status),
     (("evidence"), Json.str c.evidence),
     (("confidence"), Json.num (c.confidence : Int))]

/-- Transliteration of `JSONCompiler.add_task4_result`
(src/src/json_compiler.py lines 55-64): `total_rules` is the length of
the list and `passed` / `failed` are recomputed by scanning for the
exact status strings. -/
def add_task4_result (rule_checks : List RuleCheck) (r : Report) : Report :=
  setKey r ("task4_rule_checks") (Json.obj
    [(("description"), Json.str ("Six rule compliance checks applied")),
     (("total_rules"), Json.num (rule_checks.length : Int)),
     (("passed"), Json.num ((rule_checks.countP (fun c => c.status == ("pass"))) : Int)),
     (("failed"), Json.num ((rule_checks.countP (fun c => c.status == ("fail"))) : Int)),
     (("checks"), Json.arr (rule_checks.map ruleCheckJson)),
     (("status"), Json.str ("completed"))])

/-- Top-level key list of a report. -/
def reportKeys (r : Report) : List String := r.map (fun kv => kv.1)

/-- The fixed key set established by `JSONCompiler.__init__`. -/
def fixedKeys : List String :=
  [("metadata"), ("task1_text_extraction"), ("task2_summary"),
   ("task3_legislative_sections"), ("task4_rule_checks")]

/-- Value of the "status" field inside the named top-level section. -/
def sectionStatus (r : Report) (key : String) : Option Json :=
  match lookupKey r key with
  | some (Json.obj fs) => lookupKey fs ("status")
  | _ => none

/-- The (total_rules, passed, failed) triple of the task-4 section. -/
def reportTask4Counts (r : Report) : Option (Int × Int × Int) :=
  match lookupKey r ("task4_rule_checks") with
  | some (Json.obj fs) =>
    match lookupKey fs ("total_rules"), lookupKey fs ("passed"), lookupKey fs ("failed") with
    | some (Json.num t), some (Json.num p), some (Json.num f) => some (t, p, f)
    | _, _, _ => none
  | _ => none

/-- One contribution call on the accumulator, with its arguments. -/
inductive ReportOp where
  | metadata (now : String) (pdf_info : Json)
  | task1 (text : List Char) (path : String)
  | task2 (pts : List (List Char))
  | task3 (sections : Json)
  | task4 (checks : List RuleCheck)

/-- Application of one contribution call to the report state. -/
def applyOp (r : Report) : ReportOp → Report
  | .metadata now info => add_metadata now info r
  | .task1 t p => add_task1_result t p r
  | .task2 pts => add_task2_result pts r
  | .task3 s => add_task3_result s r
  | .task4 cs => add_task4_result cs r

/-- JSON string escaping as performed by `json.dump` with
`ensure_ascii=False` (minimal escapes; non-ASCII passes through). -/
def escapeChar (c : Char) : String :=
  if c = '"' then ("\\\"")
  else if c = '\\' then ("\\\\")
  else if c = '\n' then ("\\n")
  else if c = '\t' then ("\\t")
  else if c = '\r' then ("\\r")
  else String.mk [c]

/-- Escape every character of a string. -/
def escapeString (s : String) : String :=
  String.join (s.data.map escapeChar)

/-- Indentation prefix. -/
def spaces (n : Nat) : String := String.mk (List.replicate n ' ')

mutual

/-- Serializer mirroring `json.dump(report, f, indent=2,
ensure_ascii=False)` (src/src/json_compiler.py lines 70-86): 2-space
indentation, ", " item separator rendered as ",\n", ": " key separator. -/
def serJson (ind : Nat) : Json → String
  | .null => ("null")
  | .str s => ("\"") ++ escapeString s ++ ("\"")
  | .num n => toString n
  | .arr [] => ("[]")
  | .arr (x :: xs) =>
    ("[\n") ++ serItems (ind + 2) (x :: xs) ++ ("\n") ++ spaces ind ++ ("]")
  | .obj [] => ("\x7b\x7d")
  | .obj (f :: fs) =>
    ("\x7b\n") ++ serFields (ind + 2) (f :: fs) ++ ("\n") ++ spaces ind ++ ("\x7d")

/-- Array items, one per line at the given indentation. -/
def serItems (ind : Nat) : List Json → String
  | [] => ("")
  | [x] => spaces ind ++ serJson ind x
  | x :: y :: rest => spaces ind ++ serJson ind x ++ (",\n") ++ serItems ind (y :: rest)

/-- Object fields, one per line at the given indentation. -/
def serFields (ind : Nat) : List (String × Json) → String
  | [] => ("")
  | [(k, v)] => spaces ind ++ ("\"") ++ escapeString k ++ ("\": ") ++ serJson ind v
  | (k, v) :: g :: rest =>
    spaces ind ++ ("\"") ++ escapeString k ++ ("\": ") ++ serJson ind v ++ (",\n") ++ serFields ind (g :: rest)

end

/-- Transliteration of `JSONCompiler.save_to_file`: the report is
serialized and written out; the in-memory report itself is only read,
never modified, which the returned (bytes, state) pair makes explicit. -/
def save_to_file (r : Report) : String × Report :=
  (serJson 0 (Json.obj r), r)

/-! Orchestrator (src/main.py).  A run of `main` is determined by the
outcomes of its fallible external steps; each is an `Except` value
(`error` = that step raised).  `apply_rule_checks` never raises, so the
rule-check step carries a plain list. -/

/-- Outcomes of the external steps of one `main` run, in program order. -/
structure RunEnv where
  pdfExists : Bool
  extractText : Except String (List Char)
  pdfMetadata : Except String Json
  saveExtractedText : Except String Unit
  analyzerInit : Except String Unit
  summary : Except String (List (List Char))
  sections : Except String LegislativeSections
  ruleChecks : List RuleCheck
  saveReport : Except String Unit

/-- Observable outcome of a `main` run. -/
structure RunOutcome where
  exitCode : Nat
  reportWritten : Bool
  extractionAttempted : Bool
  llmCalled : Bool
  saveReportAttempted : Bool

/-- Transliteration of `main` (src/main.py lines 16-97): the existence
check precedes everything else and exits with code 1; the four task
stages and the two saves run in order inside one `try`; any raise lands
in the `except` and exits with code 1; `save_to_file` for the final
report is reached only after all stages completed. -/
def run (env : RunEnv) : RunOutcome :=
  if env.pdfExists = false then ⟨1, false, false, false, false⟩
  else
    match env.extractText with
    | .error _ => ⟨1, false, true, false, false⟩
    | .ok _ =>
      match env.pdfMetadata with
      | .error _ => ⟨1, false, true, false, false⟩
      | .ok _ =>
        match env.saveExtractedText with
        | .error _ => ⟨1, false, true, false, false⟩
        | .ok _ =>
          match env.analyzerInit with
          | .error _ => ⟨1, false, true, false, false⟩
          | .ok _ =>
            match env.summary with
            | .error _ => ⟨1, false, true, true, false⟩
            | .ok _ =>
              match env.sections with
              | .error _ => ⟨1, false, true, true, false⟩
              | .ok _ =>
                match env.saveReport with
                | .error _ => ⟨1, false, true, true, true⟩
                | .ok _ => ⟨0, true, true, true, true⟩

/-- Some step up to and including the last analysis stage fails
(the missing-input check counts as the earliest failure). -/
def stageFailed (env : RunEnv) : Bool :=
  !env.pdfExists || !isOk env.extractText || !isOk env.pdfMetadata
    || !isOk env.saveExtractedText || !isOk env.analyzerInit
    || !isOk env.summary || !isOk env.sections

/-! Concrete inputs used by witnesses and counterexamples. -/

/-- Run environment whose input document is missing; every later step
would succeed. -/
def envMissingPdf : RunEnv :=
  ⟨false, Except.ok [], Except.ok (Json.obj []), Except.ok (), Except.ok (),
   Except.ok [], Except.ok sectionsFallback, [], Except.ok ()⟩

/-- Page list with one whitespace-padded page, one unreadable page, one
empty page and one multi-line page. -/
def pagesEx : List (Option (List Char)) :=
  [some ((" ab ").data), none, some [], some (("c\n\nd  ").data)]

/-- Oracle returning a schema-valid reply whose status string is the
capitalized "Pass" for every rule. -/
def capPassOracle : List Char → Except String RuleCheck :=
  fun _ => Except.ok ⟨("r"), ("Pass"), ("ev"), 90⟩

/-- Structured-output oracle that always fails schema coercion. -/
def failingStructured : List Char → Except String ActSummary :=
  fun _ => Except.error ("schema failure")

/-- Plain free-text oracle that returns a fixed multi-line reply. -/
def plainReply : List Char :=
  ("a\n\n b \nc").data

/-- Plain free-text oracle succeeding with `plainReply`. -/
def okPlain : List Char → Except String (List Char) :=
  fun _ => Except.ok plainReply

/-- Sections oracle that always fails schema coercion. -/
def failingSections : List Char → Except String LegislativeSections :=
  fun _ => Except.error ("schema failure")

/-! Helper lemmas. -/

theorem dropWhile_idem (p : α → Bool) (x : List α) :
    List.dropWhile p (List.dropWhile p x) = List.dropWhile p x := by
  induction x with
  | nil => rfl
  | cons a t ih =>
    by_cases h : p a = true
    · simp [List.dropWhile_cons, h, ih]
    · simp [List.dropWhile_cons, h]

theorem dropWhile_length_le (p : α → Bool) (l : List α) :
    (List.dropWhile p l).length ≤ l.length := by
  induction l with
  | nil => simp
  | cons a t ih =>
    by_cases h : p a = true
    · simp only [List.dropWhile_cons, if_pos h, List.length_cons]
      omega
    · simp [List.dropWhile_cons, h]

theorem dropWhile_eq_self_of_prefix (p : α → Bool) {A y : List α}
    (hA : List.dropWhile p A = A) (hy : y <+: A) : List.dropWhile p y = y := by
  cases y with
  | nil => rfl
  | cons c t =>
    obtain ⟨s, hs⟩ := hy
    have hc : p c = false := by
      by_cases hp : p c = true
      · exfalso
        rw [← hs, List.cons_append, List.dropWhile_cons, if_pos hp] at hA
        have h1 := congrArg List.length hA
        have h2 := dropWhile_length_le p (t ++ s)
        simp only [List.length_cons] at h1
        omega
      · simpa using hp
    rw [List.dropWhile_cons, if_neg (by simp [hc])]

theorem stripOnce_idem (p : α → Bool) (x : List α) :
    ((((x.dropWhile p).reverse.dropWhile p).reverse.dropWhile p).reverse.dropWhile p).reverse
      = ((x.dropWhile p).reverse.dropWhile p).reverse := by
  have hA : List.dropWhile p (List.dropWhile p x) = List.dropWhile p x := dropWhile_idem p x
  have hB : List.dropWhile p (List.dropWhile p (List.dropWhile p x).reverse)
      = List.dropWhile p (List.dropWhile p x).reverse :=
    dropWhile_idem p (List.dropWhile p x).reverse
  have hsfx : List.dropWhile p (List.dropWhile p x).reverse <:+ (List.dropWhile p x).reverse :=
    List.dropWhile_suffix p
  have hyA : (List.dropWhile p (List.dropWhile p x).reverse).reverse <+: List.dropWhile p x := by
    have h2 := List.reverse_prefix.mpr hsfx
    simpa using h2
  have hy : List.dropWhile p (List.dropWhile p (List.dropWhile p x).reverse).reverse
      = (List.dropWhile p (List.dropWhile p x).reverse).reverse :=
    dropWhile_eq_self_of_prefix p hA hyA
  rw [hy, List.reverse_reverse, hB]

theorem stripL_idem (l : List Char) : stripL (stripL l) = stripL l := by
  simp only [stripL]
  exact stripOnce_idem Char.isWhitespace l

theorem mem_stripL {a : Char} {l : List Char} (h : a ∈ stripL l) : a ∈ l := by
  simp only [stripL, List.mem_reverse] at h
  have h2 := (List.dropWhile_suffix Char.isWhitespace).subset h
  rw [List.mem_reverse] at h2
  exact (List.dropWhile_suffix Char.isWhitespace).subset h2

theorem splitNL_ne_nil : ∀ t : List Char, splitNL t ≠ [] := by
  intro t
  induction t with
  | nil => simp [splitNL]
  | cons c cs ih =>
    by_cases h : c = '\n'
    · simp [splitNL, h]
    · simp only [splitNL, if_neg h]
      rcases hs : splitNL cs with _ | ⟨l, ls⟩ <;> simp

theorem splitNL_no_newline : ∀ (t : List Char) (l : List Char), l ∈ splitNL t → '\n' ∉ l := by
  intro t
  induction t with
  | nil =>
    intro l hl
    simp [splitNL] at hl
    simp [hl]
  | cons c cs ih =>
    intro l hl
    by_cases h : c = '\n'
    · simp only [splitNL, if_pos h] at hl
      rcases List.mem_cons.mp hl with rfl | hl2
      · simp
      · exact ih l hl2
    · simp only [splitNL, if_neg h] at hl
      rcases hs : splitNL cs with _ | ⟨m, ms⟩
      · exact absurd hs (splitNL_ne_nil cs)
      · rw [hs] at hl
        rcases List.mem_cons.mp hl with rfl | hl2
        · intro hmem
          rcases List.mem_cons.mp hmem with he | hm
          · exact h he.symm
          · exact ih m (hs ▸ List.mem_cons_self m ms) hm
        · exact ih l (hs ▸ List.mem_cons_of_mem m hl2)

theorem splitNL_single : ∀ l : List Char, '\n' ∉ l → splitNL l = [l] := by
  intro l
  induction l with
  | nil => intro; rfl
  | cons c cs ih =>
    intro h
    have hc : ¬ c = '\n' := fun e => h (by simp [e])
    have hcs : '\n' ∉ cs := fun m => h (List.mem_cons_of_mem _ m)
    simp only [splitNL, if_neg hc, ih hcs]

theorem splitNL_append_newline : ∀ (l t : List Char), '\n' ∉ l →
    splitNL (l ++ '\n' :: t) = l :: splitNL t := by
  intro l
  induction l with
  | nil =>
    intro t _
    simp [splitNL]
  | cons c cs ih =>
    intro t h
    have hc : ¬ c = '\n' := fun e => h (by simp [e])
    have hcs : '\n' ∉ cs := fun m => h (List.mem_cons_of_mem _ m)
    have hrec := ih t hcs
    simp only [List.cons_append, splitNL, if_neg hc]
    rw [show cs.append ('\n' :: t) = cs ++ '\n' :: t from rfl, hrec]

theorem splitNL_joinWith : ∀ L : List (List Char), L ≠ [] → (∀ l ∈ L, '\n' ∉ l) →
    splitNL (joinWith ['\n'] L) = L := by
  intro L
  induction L with
  | nil => intro h _; exact absurd rfl h
  | cons x rest ih =>
    intro _ hall
    cases rest with
    | nil => simpa [joinWith] using splitNL_single x (hall x (by simp))
    | cons y rs =>
      have hx : '\n' ∉ x := hall x (by simp)
      have hj : joinWith ['\n'] (x :: y :: rs) = x ++ '\n' :: joinWith ['\n'] (y :: rs) := by
        simp [joinWith]
      rw [hj, splitNL_append_newline x _ hx,
        ih (by simp) (fun l hl => hall l (List.mem_cons_of_mem _ hl))]

theorem cleanedLines_spec (t : List Char) :
    ∀ m ∈ cleanedLines t, m ≠ [] ∧ '\n' ∉ m ∧ stripL m = m := by
  intro m hm
  obtain ⟨hmem, hne⟩ := List.mem_filter.mp hm
  obtain ⟨orig, horig, rfl⟩ := List.mem_map.mp hmem
  refine ⟨?_, ?_, stripL_idem orig⟩
  · intro e
    rw [e] at hne
    simp at hne
  · intro hmem2
    exact splitNL_no_newline t orig horig (mem_stripL hmem2)

theorem linesOf_clean_text (t : List Char) :
    ∀ l ∈ linesOf (clean_text t), l ≠ [] ∧ stripL l = l := by
  intro l hl
  unfold linesOf at hl
  by_cases hres : clean_text t = []
  · rw [if_pos hres] at hl
    simp at hl
  · rw [if_neg hres] at hl
    have hLne : cleanedLines t ≠ [] := by
      intro e
      apply hres
      unfold clean_text
      rw [e]
      rfl
    have hsplit : splitNL (clean_text t) = cleanedLines t := by
      unfold clean_text
      exact splitNL_joinWith (cleanedLines t) hLne
        (fun m hm => (cleanedLines_spec t m hm).2.1)
    rw [hsplit] at hl
    exact ⟨(cleanedLines_spec t l hl).1, (cleanedLines_spec t l hl).2.2⟩

theorem foldl_append_map (f : α → β) : ∀ (l : List α) (acc : List β),
    l.foldl (fun r a => r ++ [f a]) acc = acc ++ l.map f := by
  intro l
  induction l with
  | nil => intro acc; simp
  | cons a t ih =>
    intro acc
    simp only [List.foldl_cons, List.map_cons, ih]
    simp

theorem apply_rule_checks_eq_map (llm : List Char → Except String RuleCheck) (text : List Char) :
    apply_rule_checks llm text = rules.map (fun rule =>
      match llm (rulePrompt rule text) with
      | .ok rc => rc
      | .error e => ⟨rule, ("error"), ("Analysis failed: ") ++ e, 0⟩) := by
  unfold apply_rule_checks
  rw [foldl_append_map]
  simp

theorem countP_add_disjoint (p q : α → Bool) : ∀ l : List α,
    (∀ a ∈ l, p a = true → q a = false) →
    l.countP p + l.countP q = l.countP (fun a => p a || q a) := by
  intro l
  induction l with
  | nil => intro; simp
  | cons a t ih =>
    intro h
    have ht := ih (fun b hb => h b (List.mem_cons_of_mem _ hb))
    by_cases hp : p a = true
    · have hq : q a = false := h a (List.mem_cons_self _ _) hp
      simp only [List.countP_cons, hp, hq, if_pos, if_neg]
      simp [hp, hq, ← ht]
      omega
    · by_cases hq : q a = true
      · simp only [List.countP_cons]
        simp [hp, hq, ← ht]
        omega
      · simp only [List.countP_cons]
        simp at hp hq
        simp [hp, hq, ← ht]

theorem lookup_setKey_self : ∀ (r : List (String × Json)) (k : String) (v : Json),
    lookupKey (setKey r k v) k = some v := by
  intro r k v
  induction r with
  | nil => simp [setKey, lookupKey]
  | cons kv rest ih =>
    obtain ⟨k0, v0⟩ := kv
    by_cases h : k0 = k
    · simp [setKey, h, lookupKey]
    · simp [setKey, h, lookupKey, ih]

theorem reportKeys_setKey : ∀ (r : List (String × Json)) (k : String) (v : Json),
    k ∈ reportKeys r → reportKeys (setKey r k v) = reportKeys r := by
  intro r k v
  induction r with
  | nil =>
    intro h
    simp [reportKeys] at h
  | cons kv rest ih =>
    intro h
    obtain ⟨k0, v0⟩ := kv
    by_cases he : k0 = k
    · simp [setKey, he, reportKeys]
    · have hk : k ∈ reportKeys rest := by
        simp only [reportKeys, List.map_cons, List.mem_cons] at h
        rcases h with h | h
        · exact absurd h.symm he
        · exact h
      simp only [setKey, if_neg he, reportKeys, List.map_cons]
      rw [show (setKey rest k v).map (fun kv => kv.1) = reportKeys rest from ih hk]
      rfl

/-! Claim theorems. -/

/-- C3: `apply_rule_checks` returns exactly one result per fixed rule
(six results, in the fixed rule order); each entry is determined solely
by the oracle call made for that rule's own prompt, so one rule's
failure yields the error-shaped entry (status "error", confidence 0,
evidence describing the failure) for that rule alone and leaves every
other entry unaffected; the function is total, i.e. never raises. -/
theorem c3_rule_checks_isolated (llm : List Char → Except String RuleCheck) (text : List Char) :
    (apply_rule_checks llm text).length = 6
    ∧ apply_rule_checks llm text = rules.map (fun rule =>
        match llm (rulePrompt rule text) with
        | .ok rc => rc
        | .error e => ⟨rule, ("error"), ("Analysis failed: ") ++ e, 0⟩) := by
  have h := apply_rule_checks_eq_map llm text
  refine ⟨?_, h⟩
  rw [h, List.length_map]
  rfl

/-- C4 counterexample: when schema-constrained decoding fails AND the
plain free-text fallback request itself raises, `summarize_act`
propagates that exception instead of returning a summary list, so the
claim "this fallback never raises" is false at this concrete input. -/
theorem c4_counterexample :
    summarize_act (fun _ => Except.error ("schema failure"))
      (fun _ => Except.error ("network failure")) (("act text").data)
      = Except.error ("network failure") := rfl

/-- C4 (amended): when schema-constrained decoding fails and the plain
free-text request succeeds with some reply, `summarize_act` returns the
reply split into stripped non-empty lines, at most 10 of them, every
one non-empty; only a failure of the plain request itself propagates. -/
theorem c4_fallback_lines (structuredLLM : List Char → Except String ActSummary)
    (plainLLM : List Char → Except String (List Char)) (text content : List Char)
    (hfail : isOk (structuredLLM (summaryPrompt text)) = false)
    (hok : plainLLM (summaryPrompt text) = Except.ok content) :
    summarize_act structuredLLM plainLLM text = Except.ok (fallbackLines content)
    ∧ (fallbackLines content).length ≤ 10
    ∧ ∀ l ∈ fallbackLines content, l ≠ [] := by
  refine ⟨?_, ?_, ?_⟩
  · unfold summarize_act
    cases h : structuredLLM (summaryPrompt text) with
    | ok s => rw [h] at hfail; simp [isOk] at hfail
    | error e => rw [hok]
  · unfold fallbackLines
    rw [List.length_take]
    exact Nat.min_le_left _ _
  · intro l hl
    unfold fallbackLines at hl
    have hl2 := List.take_subset _ _ hl
    obtain ⟨_, hne⟩ := List.mem_filter.mp hl2
    intro e
    rw [e] at hne
    simp at hne

/-- C4 witness: the amended theorem applied at a concrete schema failure
with a concrete successful free-text reply. -/
theorem c4_witness :
    isOk (failingStructured (summaryPrompt (("t").data))) = false
    ∧ okPlain (summaryPrompt (("t").data)) = Except.ok plainReply
    ∧ (summarize_act failingStructured okPlain (("t").data) = Except.ok (fallbackLines plainReply)
      ∧ (fallbackLines plainReply).length ≤ 10
      ∧ ∀ l ∈ fallbackLines plainReply, l ≠ []) :=
  ⟨rfl, rfl, c4_fallback_lines failingStructured okPlain (("t").data) plainReply rfl rfl⟩

/-- C5: when schema coercion fails, `extract_legislative_sections`
returns the all-placeholder result, every one of the seven fields being
its fixed "Error extracting <field>" string and nothing partial. -/
theorem c5_sections_all_placeholder (llm : List Char → Except String LegislativeSections)
    (text : List Char) (hfail : isOk (llm (sectionsPrompt text)) = false) :
    (extract_legislative_sections llm text).definitions = ("Error extracting definitions").data
    ∧ (extract_legislative_sections llm text).obligations = ("Error extracting obligations").data
    ∧ (extract_legislative_sections llm text).responsibilities = ("Error extracting responsibilities").data
    ∧ (extract_legislative_sections llm text).eligibility = ("Error extracting eligibility").data
    ∧ (extract_legislative_sections llm text).payments = ("Error extracting payments").data
    ∧ (extract_legislative_sections llm text).penalties = ("Error extracting penalties").data
    ∧ (extract_legislative_sections llm text).record_keeping = ("Error extracting record_keeping").data
    ∧ extract_legislative_sections llm text = sectionsFallback := by
  have h1 : extract_legislative_sections llm text = sectionsFallback := by
    unfold extract_legislative_sections
    cases h : llm (sectionsPrompt text) with
    | ok s => rw [h] at hfail; simp [isOk] at hfail
    | error e => rfl
  rw [h1]
  exact ⟨rfl, rfl, rfl, rfl, rfl, rfl, rfl, rfl⟩

/-- C5 witness: the theorem applied at a concrete failing oracle. -/
theorem c5_witness :
    isOk (failingSections (sectionsPrompt (("t").data))) = false
    ∧ (extract_legislative_sections failingSections (("t").data)).definitions
        = ("Error extracting definitions").data :=
  ⟨rfl, (c5_sections_all_placeholder failingSections (("t").data) rfl).1⟩

/-- C6: for every document from which at least one page yields text, the
extracted text equals the kept page texts joined with double newlines
and then cleaned (split into lines, each line stripped, empty lines
dropped, rejoined with single newlines), and therefore contains no
blank line and no line with leading or trailing whitespace. -/
theorem c6_extracted_text_normalized (pages : List (Option (List Char)))
    (_hpages : ((pages.filterMap id).filter (fun p => !p.isEmpty)) ≠ []) :
    extract_text_from_pdf pages
      = clean_text (joinWith ['\n', '\n'] ((pages.filterMap id).filter (fun p => !p.isEmpty)))
    ∧ ∀ l ∈ linesOf (extract_text_from_pdf pages), l ≠ [] ∧ stripL l = l := by
  refine ⟨rfl, ?_⟩
  exact linesOf_clean_text _

/-- C6 witness: the theorem applied at a concrete page list containing
a whitespace-padded page, an unreadable page, an empty page and a
multi-line page. -/
theorem c6_witness :
    ((pagesEx.filterMap id).filter (fun p => !p.isEmpty)) ≠ []
    ∧ (extract_text_from_pdf pagesEx
        = clean_text (joinWith ['\n', '\n'] ((pagesEx.filterMap id).filter (fun p => !p.isEmpty)))
      ∧ ∀ l ∈ linesOf (extract_text_from_pdf pagesEx), l ≠ [] ∧ stripL l = l) :=
  ⟨by decide, c6_extracted_text_normalized pagesEx (by decide)⟩

/-- C8: every prompt the Analysis Client builds (summarize, sections,
and each per-rule check) depends only on the first 20000 characters of
the input text: truncating the text at position 20000 leaves every
prompt unchanged. -/
theorem c8_truncation_policy (text : List Char) :
    summaryPrompt (text.take 20000) = summaryPrompt text
    ∧ sectionsPrompt (text.take 20000) = sectionsPrompt text
    ∧ ∀ rule : String, rulePrompt rule (text.take 20000) = rulePrompt rule text := by
  refine ⟨?_, ?_, fun rule => ?_⟩ <;>
    simp [summaryPrompt, sectionsPrompt, rulePrompt, List.take_take]

/-- C1: any uncaught stage failure (the input document not existing —
which is checked before any extraction or LLM call — or a raise in
extraction, metadata reading, text saving, analyzer construction,
summarization or section extraction) makes the run exit with code 1,
with the final report never written and `save_to_file` for the final
report never even attempted; additionally, when the document is missing
no extraction and no LLM call is attempted. -/
theorem c1_fail_fast (env : RunEnv) (hfail : stageFailed env = true) :
    (run env).exitCode = 1
    ∧ (run env).reportWritten = false
    ∧ (run env).saveReportAttempted = false
    ∧ (env.pdfExists = false →
        (run env).extractionAttempted = false ∧ (run env).llmCalled = false) := by
  obtain ⟨pe, ext, md, st, ai, su, se, rc, sr⟩ := env
  cases pe <;> cases ext <;> cases md <;> cases st <;> cases ai <;> cases su <;> cases se <;>
    cases sr <;> simp_all [run, stageFailed, isOk]

/-- C1 witness: the theorem applied to a run whose input document is
missing. -/
theorem c1_witness :
    stageFailed envMissingPdf = true
    ∧ ((run envMissingPdf).exitCode = 1
      ∧ (run envMissingPdf).reportWritten = false
      ∧ (run envMissingPdf).saveReportAttempted = false
      ∧ (envMissingPdf.pdfExists = false →
          (run envMissingPdf).extractionAttempted = false
          ∧ (run envMissingPdf).llmCalled = false)) :=
  ⟨rfl, c1_fail_fast envMissingPdf rfl⟩

/-- C2 counterexample: the claim's "passed + failed = total_rules exactly
when no entry has status error" fails on the code, because the pydantic
schema does not constrain the status string: an oracle whose replies
all carry the capitalized status "Pass" yields six entries none of which
has status "error", yet passed = failed = 0 while total_rules = 6. -/
theorem c2_counterexample :
    (apply_rule_checks capPassOracle (("t").data)).all (fun c => !(c.status == ("error"))) = true
    ∧ reportTask4Counts (add_task4_result (apply_rule_checks capPassOracle (("t").data)) initReport)
        = some (6, 0, 0)
    ∧ ¬((0 : Int) + 0 = 6) :=
  ⟨rfl, rfl, by decide⟩

/-- C2 (amended): for every rule-check list produced by
`apply_rule_checks`, the section built by `add_task4_result` has
total_rules = 6, passed and failed recomputed by scanning the list for
the exact status strings, passed + failed ≤ total_rules, and equality
holds exactly when every entry's status is "pass" or "fail" — any other
status, including the fallback's "error", makes the sum fall short. -/
theorem c2_task4_counts (llm : List Char → Except String RuleCheck) (text : List Char)
    (rep : Report) :
    ∃ p f : Nat,
      reportTask4Counts (add_task4_result (apply_rule_checks llm text) rep)
        = some (6, (p : Int), (f : Int))
      ∧ p + f ≤ 6
      ∧ (p + f = 6 ↔ ∀ c ∈ apply_rule_checks llm text,
          c.status = ("pass") ∨ c.status = ("fail")) := by
  have hlen : (apply_rule_checks llm text).length = 6 := by
    rw [apply_rule_checks_eq_map, List.length_map]
    rfl
  refine ⟨(apply_rule_checks llm text).countP (fun c => c.status == ("pass")),
    (apply_rule_checks llm text).countP (fun c => c.status == ("fail")), ?_, ?_, ?_⟩
  · unfold reportTask4Counts add_task4_result
    rw [lookup_setKey_self]
    simp [lookupKey, hlen]
  · have hdisj : ∀ c ∈ apply_rule_checks llm text,
        (fun c : RuleCheck => c.status == ("pass")) c = true →
        (fun c : RuleCheck => c.status == ("fail")) c = false := by
      intro c _ hp
      simp only [beq_iff_eq] at hp ⊢
      rw [hp]
      decide
    rw [countP_add_disjoint _ _ _ hdisj, ← hlen]
    exact List.countP_le_length _
  · have hdisj : ∀ c ∈ apply_rule_checks llm text,
        (fun c : RuleCheck => c.status == ("pass")) c = true →
        (fun c : RuleCheck => c.status == ("fail")) c = false := by
      intro c _ hp
      simp only [beq_iff_eq] at hp ⊢
      rw [hp]
      decide
    rw [countP_add_disjoint _ _ _ hdisj, ← hlen, List.countP_eq_length]
    constructor
    · intro h c hc
      have := h c hc
      simpa using this
    · intro h c hc
      have := h c hc
      simpa using this

/-- C7: the report always has exactly the five fixed top-level sections:
the key list holds at construction and is preserved by every possible
sequence of add_metadata / add_task1..4 calls, whatever their
arguments. -/
theorem c7_fixed_sections (ops : List ReportOp) :
    reportKeys (ops.foldl applyOp initReport) = fixedKeys := by
  suffices h : ∀ (ops : List ReportOp) (r : Report), reportKeys r = fixedKeys →
      reportKeys (ops.foldl applyOp r) = fixedKeys by
    exact h ops initReport rfl
  intro ops
  induction ops with
  | nil => intro r hr; exact hr
  | cons op rest ih =>
    intro r hr
    rw [List.foldl_cons]
    apply ih
    cases op with
    | metadata now info =>
      unfold applyOp add_metadata
      rw [reportKeys_setKey _ _ _ (by rw [hr]; decide), hr]
    | task1 t p =>
      unfold applyOp add_task1_result
      rw [reportKeys_setKey _ _ _ (by rw [hr]; decide), hr]
    | task2 pts =>
      unfold applyOp add_task2_result
      rw [reportKeys_setKey _ _ _ (by rw [hr]; decide), hr]
    | task3 s =>
      unfold applyOp add_task3_result
      rw [reportKeys_setKey _ _ _ (by rw [hr]; decide), hr]
    | task4 cs =>
      unfold applyOp add_task4_result
      rw [reportKeys_setKey _ _ _ (by rw [hr]; decide), hr]

/-- C9: persisting the in-memory report twice, with no intervening add
call, produces byte-identical serialized output: save_to_file leaves the
report unchanged and the serialization is a pure function of the report
contents. (This is stronger than the claim, which only requires identity
modulo the analysis_date field: that field is set by add_metadata, not
by saving, so it too is identical across the two saves.) -/
theorem c9_save_idempotent (r : Report) :
    (save_to_file r).2 = r
    ∧ (save_to_file ((save_to_file r).2)).1 = (save_to_file r).1 :=
  ⟨rfl, rfl⟩

/-- C10: every add_task1..4 call sets its own section's "status" field
to the literal string "completed", unconditionally in the contents
passed in (including degraded placeholder contents). -/
theorem c10_status_always_completed (r : Report) (text : List Char) (path : String)
    (pts : List (List Char)) (sections : Json) (checks : List RuleCheck) :
    sectionStatus (add_task1_result text path r) ("task1_text_extraction")
      = some (Json.str ("completed"))
    ∧ sectionStatus (add_task2_result pts r) ("task2_summary")
      = some (Json.str ("completed"))
    ∧ sectionStatus (add_task3_result sections r) ("task3_legislative_sections")
      = some (Json.str ("completed"))
    ∧ sectionStatus (add_task4_result checks r) ("task4_rule_checks")
      = some (Json.str ("completed")) := by
  refine ⟨?_, ?_, ?_, ?_⟩
  · unfold sectionStatus add_task1_result
    rw [lookup_setKey_self]
    simp [lookupKey]
  · unfold sectionStatus add_task2_result
    rw [lookup_setKey_self]
    simp [lookupKey]
  · unfold sectionStatus add_task3_result
    rw [lookup_setKey_self]
    simp [lookupKey]
  · unfold sectionStatus add_task4_result
    rw [lookup_setKey_self]
    simp [lookupKey]

end LegislativeAgent
